import Mathlib

/-!
Verification development for the Trimble Thunderbolt TSIP telemetry decoder
(`thunderbolt.py`).  The Python module maintains a single mutable receiver
state updated by `process_buffer` (the packet decoder), fed by the byte-level
framing state machine in `serial_server`, with a periodic liveness check in
`alarm_server`.

Modelling conventions:
* Python `int` fields are `ℤ`; raw bytes are `ℕ` (each in 0..255 at use sites);
* Python `float` fields are `ℚ`: IEEE-754 bit patterns in the wire payload are
  decoded exactly by the finite-value formula, and Python float arithmetic is
  idealized as exact rational arithmetic (no claim here depends on binary
  rounding of the products, `NaN`, or infinities);
* `struct.unpack(fmt, buffer[:offset])` succeeds exactly when
  `struct.calcsize(fmt) = offset`; a `struct.error` is modelled as the failure
  result of the decode function (the Python code catches it and returns
  `False`);
* the 256-byte `bytearray` buffers are `List ℕ`; indexing is `List.getD` — a
  read of `buffer[i]` in the Python code is always in bounds because the
  backing `bytearray` has fixed length 256, and `getD` reads the same persisted
  (possibly stale) byte.
-/

namespace Thunderbolt

/-- ETX = 0x03, end of message marker. -/
def ETX : ℕ := 0x03

/-- DLE = 0x10, start of message / escape marker. -/
def DLE : ℕ := 0x10

/-- Packet ids that are safe to ignore (`ignore_packets` in the source). -/
def ignore_packets : List ℕ :=
  [0x43, 0x45, 0x47, 0x49, 0x55, 0x56, 0x57, 0x58, 0x59,
   0x5a, 0x5b, 0x5c, 0x5f, 0x70, 0x83, 0x84, 0xbb]

/-- Sub-ids of packet 0x8f that are ignored (`ignore_8f_packets` in the source). -/
def ignore_8f_packets : List ℕ :=
  [0x15, 0x41, 0x42, 0x4a, 0x4c, 0xa0, 0xa1, 0xa2, 0xa5]

/-- Reader state: waiting for DLE. -/
def RS_INIT : ℕ := 0

/-- Reader state: reading data into buffer. -/
def RS_READ : ℕ := 1

/-- Reader state: reading data, last byte was DLE. -/
def RS_READ_DLE : ℕ := 2

/-- Size of the serial buffers. -/
def BUFFER_SIZE : ℕ := 256

/-- GPS Epoch date (January 6, 1980 at 00:00Z) as Unix Time. -/
def GPS_EPOCH_AS_UNIX_TIME : ℤ := 315964800

/-- The mutable telemetry snapshot held by the `Thunderbolt` object: every data
field assigned in `Thunderbolt.__init__` (the externally provisioned serial
port and the port name are not part of the model). -/
structure ReceiverState where
  run : Bool
  connected : Bool
  receiver_mode : ℤ
  discipline_mode : ℤ
  holdover_duration : ℤ
  gps_status : ℤ
  minor_alarms : ℤ
  critical_alarms : ℤ
  latitude : ℚ
  longitude : ℚ
  altitude : ℚ
  satellites : List ℤ
  fix_dim : ℤ
  unixtime : ℤ
  last_unixtime : ℤ
  tm : String
  last_seen_tm : ℤ
deriving DecidableEq, Repr

/-- Field values set by `Thunderbolt.__init__`. -/
def initState : ReceiverState where
  run := true
  connected := false
  receiver_mode := -1
  discipline_mode := -1
  holdover_duration := -1
  gps_status := -1
  minor_alarms := 0
  critical_alarms := 0
  latitude := -1
  longitude := -1
  altitude := -1
  satellites := []
  fix_dim := 0
  unixtime := -1
  last_unixtime := -1
  tm := ""
  last_seen_tm := 0

/-- Signed interpretation of one byte (struct format `b`). -/
def toSigned8 (b : ℕ) : ℤ := if b < 128 then (b : ℤ) else (b : ℤ) - 256

/-- Big-endian unsigned 16-bit integer (struct format `>H`). -/
def be16 (b0 b1 : ℕ) : ℕ := b0 * 256 + b1

/-- Big-endian unsigned 32-bit integer (struct format `>I`). -/
def be32 (b0 b1 b2 b3 : ℕ) : ℕ := ((b0 * 256 + b1) * 256 + b2) * 256 + b3

/-- Exact value of a big-endian IEEE-754 binary64 bit pattern (struct format
`>d`).  Finite values are decoded exactly; the exponent pattern 0x7ff (NaN and
infinity, which denote no rational) is interpreted by the same normal-number
formula — no claim depends on such payloads. -/
def unpackF64 (b0 b1 b2 b3 b4 b5 b6 b7 : ℕ) : ℚ :=
  let m : ℕ := (b1 % 16) * 2 ^ 48 + b2 * 2 ^ 40 + b3 * 2 ^ 32 + b4 * 2 ^ 24
    + b5 * 2 ^ 16 + b6 * 2 ^ 8 + b7
  let e : ℕ := (b0 % 128) * 16 + b1 / 16
  let mag : ℚ := if e = 0 then (m : ℚ) / 2 ^ 1074 else ((2 ^ 52 + m : ℕ) : ℚ) * 2 ^ e / 2 ^ 1075
  if b0 < 128 then mag else -mag

/-- Nearest integer with ties to even, the rounding used by Python `round`. -/
def rndHalfEven (q : ℚ) : ℤ :=
  if q - ⌊q⌋ < 1 / 2 then ⌊q⌋
  else if 1 / 2 < q - ⌊q⌋ then ⌊q⌋ + 1
  else if ⌊q⌋ % 2 = 0 then ⌊q⌋ else ⌊q⌋ + 1

/-- Python `round(q, nd)`: round half to even at `nd` decimal digits
(idealized over exact rationals). -/
def pyround (nd : ℕ) (q : ℚ) : ℚ := (rndHalfEven (q * 10 ^ nd) : ℚ) / 10 ^ nd

/-- Python `f'{n:02d}'` for a byte-sized `n`. -/
def pad2 (n : ℕ) : String := if n < 10 then "0" ++ toString n else toString n

/-- The week-number underflow fix in the 0x8f 0xab decode:
`while week_number < 2048: week_number += 1024`. -/
def fixWeekNumber (w : ℕ) : ℕ :=
  if h : w < 2048 then fixWeekNumber (w + 1024) else w
termination_by 2048 - w
decreasing_by omega

/-- Decode of packet 0x6d (satellite selection list).
`num_sats = offset - 18`, format `>xBffff` + `b` * num_sats; the unpack
succeeds exactly when the format size `18 + max (offset - 18) 0` equals
`offset`, i.e. when `18 ≤ offset`.  The bitmask is byte 1; the PRN list is
bytes 18..offset-1 as signed bytes, stored sorted ascending (`sorted` in
Python; on integers insertion sort returns the same, unique, sorted list).
The secondary satellite count `(bm & 0xf0) >> 4` is computed but unused. -/
def decode_6d (st : ReceiverState) (buffer : List ℕ) (offset : ℕ) :
    Bool × ReceiverState :=
  if offset < 18 then (false, st)
  else
    (true,
      { st with
        fix_dim :=
          if (buffer.getD 1 0) &&& 0x07 = 1 then 1
          else if (buffer.getD 1 0) &&& 0x07 = 3 then 2
          else if (buffer.getD 1 0) &&& 0x07 = 4 then 3
          else if (buffer.getD 1 0) &&& 0x07 = 5 then 5
          else 0  -- unmapped values log a warning and set fix_dim = 0
        satellites :=
          List.insertionSort (· ≤ ·)
            ((List.range (offset - 18)).map
              (fun i => toSigned8 (buffer.getD (18 + i) 0))) })

/-- Decode of packet 0x8f 0xab (primary timing packet), format `>xxIHhBBBBBBH`
(size 18): time-of-week is bytes 2-5, week number bytes 6-7, seconds byte 11,
minutes byte 12, hours byte 13.  The utc-offset, timing-flag, day, month and
year fields are unpacked but unused.  Sets `unixtime` (week-number fixed by
`fixWeekNumber`), `tm` and `connected`. -/
def decode_8f_ab (st : ReceiverState) (buffer : List ℕ) (offset : ℕ) :
    Bool × ReceiverState :=
  if offset = 18 then
    (true,
      { st with
        unixtime := GPS_EPOCH_AS_UNIX_TIME
          + (fixWeekNumber (be16 (buffer.getD 6 0) (buffer.getD 7 0)) : ℤ) * 7 * 86400
          + (be32 (buffer.getD 2 0) (buffer.getD 3 0) (buffer.getD 4 0) (buffer.getD 5 0) : ℤ)
        tm := pad2 (buffer.getD 13 0) ++ ":" ++ pad2 (buffer.getD 12 0) ++ ":"
          ++ pad2 (buffer.getD 11 0)
        connected := true })
  else (false, st)

/-- Decode of packet 0x8f 0xac (secondary timing packet), format
`>xxBBBIHHBBBBffIffdddxxxxxxxx` (size 69).  Latitude and longitude (doubles at
bytes 37-44 and 45-52, radians) are stored as `round(x * 57.29578, 4)`
(degrees); altitude (double at bytes 53-60, meters) is stored as
`round(x * 3.2808398950131, 1)` (feet).  The self-survey-progress,
disciplining-activity, spare, pps/oscillator-offset, DAC and temperature
fields are unpacked but unused. -/
def decode_8f_ac (st : ReceiverState) (buffer : List ℕ) (offset : ℕ) :
    Bool × ReceiverState :=
  if offset = 69 then
    (true,
      { st with
        receiver_mode := (buffer.getD 2 0 : ℤ)
        discipline_mode := (buffer.getD 3 0 : ℤ)
        holdover_duration :=
          (be32 (buffer.getD 5 0) (buffer.getD 6 0) (buffer.getD 7 0) (buffer.getD 8 0) : ℤ)
        critical_alarms := (be16 (buffer.getD 9 0) (buffer.getD 10 0) : ℤ)
        minor_alarms := (be16 (buffer.getD 11 0) (buffer.getD 12 0) : ℤ)
        gps_status := (buffer.getD 13 0 : ℤ)
        latitude := pyround 4
          (unpackF64 (buffer.getD 37 0) (buffer.getD 38 0) (buffer.getD 39 0)
            (buffer.getD 40 0) (buffer.getD 41 0) (buffer.getD 42 0)
            (buffer.getD 43 0) (buffer.getD 44 0) * (57.29578 : ℚ))
        longitude := pyround 4
          (unpackF64 (buffer.getD 45 0) (buffer.getD 46 0) (buffer.getD 47 0)
            (buffer.getD 48 0) (buffer.getD 49 0) (buffer.getD 50 0)
            (buffer.getD 51 0) (buffer.getD 52 0) * (57.29578 : ℚ))
        altitude := pyround 1
          (unpackF64 (buffer.getD 53 0) (buffer.getD 54 0) (buffer.getD 55 0)
            (buffer.getD 56 0) (buffer.getD 57 0) (buffer.getD 58 0)
            (buffer.getD 59 0) (buffer.getD 60 0) * (3.2808398950131 : ℚ)) })
  else (false, st)

/-- Dispatch on the sub-id (byte 1) of packet 0x8f.  Sub-ids in
`ignore_8f_packets` return success immediately; the `elif` arms for those same
sub-ids (0x15, 0x41, 0x42, 0x4a, 0x4c, 0xa0, 0xa1, 0xa2, 0xa5) are therefore
unreachable dead code.  Sub-id 0xa7 only logs when the message format byte is
nonzero, 0xa8's body is disabled by `if False`, and 0xa9 is `pass`: all three
return success without touching state.  0xab and 0xac decode; any other sub-id
logs a warning and returns failure. -/
def decode_8f (st : ReceiverState) (buffer : List ℕ) (offset : ℕ) :
    Bool × ReceiverState :=
  if buffer.getD 1 0 ∈ ignore_8f_packets then (true, st)
  else if buffer.getD 1 0 = 0xa7 then (true, st)
  else if buffer.getD 1 0 = 0xa8 then (true, st)
  else if buffer.getD 1 0 = 0xa9 then (true, st)
  else if buffer.getD 1 0 = 0xab then decode_8f_ab st buffer offset
  else if buffer.getD 1 0 = 0xac then decode_8f_ac st buffer offset
  else (false, st)

/-- `Thunderbolt.process_buffer`: dispatch on the packet id (byte 0).
Ids in `ignore_packets` return success before the `try` block, so the `elif`
arms for 0x43, 0x45, 0x47, 0x49, 0x55-0x5c, 0x5f, 0x70, 0x83, 0x84 and 0xbb
(including 0x47's unpack) are unreachable dead code.  Packet 0x13 (negative
acknowledgement) only logs — every path through its branch falls through to
`return True` without touching state.  Packet 0x6d and the 0x8f family decode;
any other id logs a warning and returns failure (`False`). -/
def process_buffer (st : ReceiverState) (buffer : List ℕ) (offset : ℕ) :
    Bool × ReceiverState :=
  if buffer.getD 0 0 ∈ ignore_packets then (true, st)
  else if buffer.getD 0 0 = 0x13 then (true, st)
  else if buffer.getD 0 0 = 0x6d then decode_6d st buffer offset
  else if buffer.getD 0 0 = 0x8f then decode_8f st buffer offset
  else (false, st)

/-- One iteration of the `while` loop in `Thunderbolt.alarm_server` (after its
1-second sleep): `connected` is set from `last_seen_tm > milliseconds() - 60000`. -/
def alarm_server_tick (st : ReceiverState) (now_ms : ℤ) : ReceiverState :=
  if st.last_seen_tm > now_ms - 60000 then { st with connected := true }
  else { st with connected := false }

/-- `Thunderbolt.get_datetime` returns
`datetime.fromtimestamp(self.unixtime, timezone.utc)`, i.e. the stored
`unixtime` field presented as a calendar datetime; the model represents the
datetime by the unix timestamp it wraps. -/
def get_datetime (st : ReceiverState) : ℤ := st.unixtime

/-- Byte strings transmitted to the device by `Thunderbolt.__init__` and
`Thunderbolt.serial_server`: the constructor only opens the serial port
(9600 baud, non-blocking) and initializes fields, and the read loop never
writes, so the transmit trace is empty. -/
def startup_port_writes : List (List ℕ) := []

/-- Local state of the `serial_server` loop: the reader state machine, the
unescaped payload buffer plus its write cursor `offset`, and the raw
(pre-unescape) diagnostic buffer plus its write cursor `raw_offset`. -/
structure SerialState where
  reader_state : ℕ
  buffer : List ℕ
  raw : List ℕ
  offset : ℕ
  raw_offset : ℕ
deriving DecidableEq, Repr

/-- The loop's initial locals: `RS_INIT`, two zeroed 256-byte buffers, both
cursors at 0. -/
def initSerial : SerialState :=
  ⟨RS_INIT, List.replicate BUFFER_SIZE 0, List.replicate BUFFER_SIZE 0, 0, 0⟩

/-- The two overflow checks run at the end of every loop iteration: if
`offset >= BUFFER_SIZE` reset `offset` to 0 and the reader to `RS_INIT`; if
`raw_offset >= BUFFER_SIZE` reset `raw_offset` to 0. -/
def overflow_check (ss : SerialState) : SerialState :=
  ⟨if ss.offset ≥ BUFFER_SIZE then RS_INIT else ss.reader_state,
   ss.buffer, ss.raw,
   if ss.offset ≥ BUFFER_SIZE then 0 else ss.offset,
   if ss.raw_offset ≥ BUFFER_SIZE then 0 else ss.raw_offset⟩

/-- One iteration of the `serial_server` loop consuming one byte `b` read at
time `now_ms`: store `b` into the raw buffer at `raw_offset`, advance
`raw_offset`, run the reader state machine (on frame completion stamp
`last_seen_tm` and run `process_buffer`), then apply the overflow checks. -/
def serial_step (tb : ReceiverState) (ss : SerialState) (b : ℕ) (now_ms : ℤ) :
    ReceiverState × SerialState :=
  if ss.reader_state = RS_INIT then
    if b = DLE then
      -- frame start: logs a data-lost warning when offset ≠ 0, then resets
      (tb, overflow_check ⟨RS_READ, ss.buffer, (ss.raw.set ss.raw_offset b).set 0 b, 0, 1⟩)
    else
      (tb, overflow_check ⟨RS_INIT, ss.buffer, ss.raw.set ss.raw_offset b, ss.offset,
        ss.raw_offset + 1⟩)
  else if ss.reader_state = RS_READ then
    if b = DLE then
      (tb, overflow_check ⟨RS_READ_DLE, ss.buffer, ss.raw.set ss.raw_offset b, ss.offset,
        ss.raw_offset + 1⟩)
    else
      (tb, overflow_check ⟨RS_READ, ss.buffer.set ss.offset b, ss.raw.set ss.raw_offset b,
        ss.offset + 1, ss.raw_offset + 1⟩)
  else if ss.reader_state = RS_READ_DLE then
    if b = ETX then
      -- frame complete: set last_seen_tm, decode, reset both cursors
      ((process_buffer { tb with last_seen_tm := now_ms } ss.buffer ss.offset).2,
        overflow_check ⟨RS_INIT, ss.buffer, ss.raw.set ss.raw_offset b, 0, 0⟩)
    else
      (tb, overflow_check ⟨RS_READ, ss.buffer.set ss.offset b, ss.raw.set ss.raw_offset b,
        ss.offset + 1, ss.raw_offset + 1⟩)
  else
    -- unhandled reader state: only logs an error
    (tb, overflow_check ⟨ss.reader_state, ss.buffer, ss.raw.set ss.raw_offset b, ss.offset,
      ss.raw_offset + 1⟩)

/-- The buffer indices written during one `serial_step`: the raw buffer is
written at `raw_offset` (and additionally at 0 on a frame start); the payload
buffer is written at `offset` in the two append cases. -/
def serial_step_write_indices (ss : SerialState) (b : ℕ) : List ℕ :=
  [ss.raw_offset] ++
    (if ss.reader_state = RS_INIT then (if b = DLE then [0] else [])
     else if ss.reader_state = RS_READ then (if b = DLE then [] else [ss.offset])
     else if ss.reader_state = RS_READ_DLE then (if b = ETX then [] else [ss.offset])
     else [])

/-- Loop invariant of `serial_server`: both write cursors are at most 255 at
the start of an iteration. -/
def serialInv (ss : SerialState) : Prop :=
  ss.offset ≤ 255 ∧ ss.raw_offset ≤ 255

lemma overflow_check_inv (ss : SerialState) (h1 : ss.offset ≤ 256)
    (h2 : ss.raw_offset ≤ 256) : serialInv (overflow_check ss) := by
  unfold overflow_check serialInv BUFFER_SIZE
  constructor <;> dsimp only <;> split_ifs <;> omega

lemma fixWeekNumber_of_ge (w : ℕ) (h : 2048 ≤ w) : fixWeekNumber w = w := by
  unfold fixWeekNumber
  rw [dif_neg (by omega)]

lemma fixWeekNumber_mid (w : ℕ) (h1 : 1024 ≤ w) (h2 : w < 2048) :
    fixWeekNumber w = w + 1024 := by
  unfold fixWeekNumber
  rw [dif_pos h2, fixWeekNumber_of_ge _ (by omega)]

lemma fixWeekNumber_low (w : ℕ) (h : w < 1024) : fixWeekNumber w = w + 2048 := by
  unfold fixWeekNumber
  rw [dif_pos (by omega), fixWeekNumber_mid _ (by omega) (by omega)]

lemma fixWeekNumber_eq (w : ℕ) :
    fixWeekNumber w
      = if w < 1024 then w + 2048 else if w < 2048 then w + 1024 else w := by
  split_ifs with h1 h2
  · exact fixWeekNumber_low w h1
  · exact fixWeekNumber_mid w (by omega) h2
  · exact fixWeekNumber_of_ge w (by omega)

lemma process_buffer_8f (st : ReceiverState) (buffer : List ℕ) (offset : ℕ)
    (h0 : buffer.getD 0 0 = 0x8f) :
    process_buffer st buffer offset = decode_8f st buffer offset := by
  unfold process_buffer
  rw [h0]
  norm_num [ignore_packets]

lemma process_buffer_6d (st : ReceiverState) (buffer : List ℕ) (offset : ℕ)
    (h0 : buffer.getD 0 0 = 0x6d) :
    process_buffer st buffer offset = decode_6d st buffer offset := by
  unfold process_buffer
  rw [h0]
  norm_num [ignore_packets]

lemma decode_8f_ab_dispatch (st : ReceiverState) (buffer : List ℕ) (offset : ℕ)
    (h1 : buffer.getD 1 0 = 0xab) :
    decode_8f st buffer offset = decode_8f_ab st buffer offset := by
  unfold decode_8f
  rw [h1]
  norm_num [ignore_8f_packets]

lemma decode_8f_ac_dispatch (st : ReceiverState) (buffer : List ℕ) (offset : ℕ)
    (h1 : buffer.getD 1 0 = 0xac) :
    decode_8f st buffer offset = decode_8f_ac st buffer offset := by
  unfold decode_8f
  rw [h1]
  norm_num [ignore_8f_packets]

lemma decode_8f_ab_eq (st : ReceiverState) (buffer : List ℕ) :
    decode_8f_ab st buffer 18
      = (true,
          { st with
            unixtime := GPS_EPOCH_AS_UNIX_TIME
              + (fixWeekNumber (be16 (buffer.getD 6 0) (buffer.getD 7 0)) : ℤ) * 7 * 86400
              + (be32 (buffer.getD 2 0) (buffer.getD 3 0) (buffer.getD 4 0) (buffer.getD 5 0) : ℤ)
            tm := pad2 (buffer.getD 13 0) ++ ":" ++ pad2 (buffer.getD 12 0) ++ ":"
              ++ pad2 (buffer.getD 11 0)
            connected := true }) := by
  unfold decode_8f_ab
  norm_num

lemma decode_8f_ac_eq (st : ReceiverState) (buffer : List ℕ) :
    decode_8f_ac st buffer 69
      = (true,
          { st with
            receiver_mode := (buffer.getD 2 0 : ℤ)
            discipline_mode := (buffer.getD 3 0 : ℤ)
            holdover_duration :=
              (be32 (buffer.getD 5 0) (buffer.getD 6 0) (buffer.getD 7 0) (buffer.getD 8 0) : ℤ)
            critical_alarms := (be16 (buffer.getD 9 0) (buffer.getD 10 0) : ℤ)
            minor_alarms := (be16 (buffer.getD 11 0) (buffer.getD 12 0) : ℤ)
            gps_status := (buffer.getD 13 0 : ℤ)
            latitude := pyround 4
              (unpackF64 (buffer.getD 37 0) (buffer.getD 38 0) (buffer.getD 39 0)
                (buffer.getD 40 0) (buffer.getD 41 0) (buffer.getD 42 0)
                (buffer.getD 43 0) (buffer.getD 44 0) * (57.29578 : ℚ))
            longitude := pyround 4
              (unpackF64 (buffer.getD 45 0) (buffer.getD 46 0) (buffer.getD 47 0)
                (buffer.getD 48 0) (buffer.getD 49 0) (buffer.getD 50 0)
                (buffer.getD 51 0) (buffer.getD 52 0) * (57.29578 : ℚ))
            altitude := pyround 1
              (unpackF64 (buffer.getD 53 0) (buffer.getD 54 0) (buffer.getD 55 0)
                (buffer.getD 56 0) (buffer.getD 57 0) (buffer.getD 58 0)
                (buffer.getD 59 0) (buffer.getD 60 0) * (3.2808398950131 : ℚ)) }) := by
  unfold decode_8f_ac
  norm_num

lemma decode_6d_eq (st : ReceiverState) (buffer : List ℕ) (offset : ℕ)
    (h : ¬ offset < 18) :
    decode_6d st buffer offset
      = (true,
          { st with
            fix_dim :=
              if (buffer.getD 1 0) &&& 0x07 = 1 then 1
              else if (buffer.getD 1 0) &&& 0x07 = 3 then 2
              else if (buffer.getD 1 0) &&& 0x07 = 4 then 3
              else if (buffer.getD 1 0) &&& 0x07 = 5 then 5
              else 0
            satellites :=
              List.insertionSort (· ≤ ·)
                ((List.range (offset - 18)).map
                  (fun i => toSigned8 (buffer.getD (18 + i) 0))) }) := by
  unfold decode_6d
  rw [if_neg h]

/-- 0x8f 0xab frame with time-of-week 100, raw week number 1000, utc offset
18, time 12:15:30, date 2024-01-01 — the example frame of the specification's
testable-properties section. -/
def c1Frame : List ℕ :=
  [0x8f, 0xab, 0, 0, 0, 100, 0x03, 0xe8, 0x00, 0x12, 0, 30, 15, 12, 1, 1, 0x07, 0xe8]

/-- C1 counterexample: decoding a 0x8f 0xab frame whose raw week-number field
is 1000 uses corrected week number 3048 (the loop adds 1024 until the value
reaches 2048), not 1000 + 1024 = 2024, as witnessed by the stored `unixtime`;
there is no `week_number` field in the receiver state at all. -/
theorem c1_week_rollover_counterexample :
    be16 (c1Frame.getD 6 0) (c1Frame.getD 7 0) = 1000 ∧
    fixWeekNumber 1000 = 3048 ∧
    (process_buffer initState c1Frame 18).2.unixtime
      = GPS_EPOCH_AS_UNIX_TIME + 3048 * 604800 + 100 ∧
    GPS_EPOCH_AS_UNIX_TIME + 3048 * 604800 + 100
      ≠ GPS_EPOCH_AS_UNIX_TIME + (1000 + 1024) * 604800 + 100 := by
  refine ⟨by decide, by rw [fixWeekNumber_low 1000 (by norm_num)], ?_, by decide⟩
  rw [process_buffer_8f _ _ _ (by decide), decode_8f_ab_dispatch _ _ _ (by decide),
    decode_8f_ab_eq]
  dsimp only
  rw [show be16 (c1Frame.getD 6 0) (c1Frame.getD 7 0) = 1000 from by decide,
    fixWeekNumber_low 1000 (by norm_num)]
  decide

/-- C1 (amended): a successful decode of a 0x8f 0xab frame with raw week
number w uses the corrected week number `fixWeekNumber w` — w + 2048 for
w < 1024, w + 1024 for 1024 ≤ w < 2048, w unchanged for w ≥ 2048 — in the
stored `unixtime`; no separate week-number field is stored. -/
theorem c1_week_rollover_amended (st : ReceiverState) (buffer : List ℕ) (w : ℕ)
    (h0 : buffer.getD 0 0 = 0x8f) (h1 : buffer.getD 1 0 = 0xab)
    (hw : be16 (buffer.getD 6 0) (buffer.getD 7 0) = w) :
    (process_buffer st buffer 18).1 = true ∧
    (process_buffer st buffer 18).2.unixtime
      = GPS_EPOCH_AS_UNIX_TIME + (fixWeekNumber w : ℤ) * 604800
        + (be32 (buffer.getD 2 0) (buffer.getD 3 0) (buffer.getD 4 0) (buffer.getD 5 0) : ℤ) ∧
    fixWeekNumber w = (if w < 1024 then w + 2048 else if w < 2048 then w + 1024 else w) := by
  rw [process_buffer_8f _ _ _ h0, decode_8f_ab_dispatch _ _ _ h1, decode_8f_ab_eq]
  refine ⟨rfl, ?_, fixWeekNumber_eq w⟩
  dsimp only
  rw [hw]
  ring

/-- C1 witness: the amended statement instantiated at the concrete frame with
raw week number 1000. -/
theorem c1_week_rollover_witness :
    (process_buffer initState c1Frame 18).1 = true ∧
    (process_buffer initState c1Frame 18).2.unixtime
      = GPS_EPOCH_AS_UNIX_TIME + (fixWeekNumber 1000 : ℤ) * 604800
        + (be32 (c1Frame.getD 2 0) (c1Frame.getD 3 0) (c1Frame.getD 4 0) (c1Frame.getD 5 0) : ℤ) ∧
    fixWeekNumber 1000
      = (if 1000 < 1024 then 1000 + 2048 else if 1000 < 2048 then 1000 + 1024 else 1000) :=
  c1_week_rollover_amended initState c1Frame 1000 (by decide) (by decide) (by decide)

/-- Definition following the specification's words (claim C2): derived
timestamp = GPS epoch + week_number × 604800 + time_of_week − utc_offset. -/
def spec_derived_timestamp (week_number time_of_week utc_offset : ℤ) : ℤ :=
  GPS_EPOCH_AS_UNIX_TIME + week_number * 604800 + time_of_week - utc_offset

/-- 0x8f 0xab frame with time-of-week 100, raw week number 1024 (corrected
week number 2048 under both the code's rule and the claim's w + 1024 rule),
utc offset 18. -/
def c2Frame : List ℕ :=
  [0x8f, 0xab, 0, 0, 0, 100, 0x04, 0x00, 0x00, 0x12, 0, 30, 15, 12, 1, 1, 0x07, 0xe8]

/-- C2 counterexample: for a 0x8f 0xab frame with corrected week number 2048,
time-of-week 100 and utc offset 18, the code stores
GPS epoch + 2048·604800 + 100 into `ReceiverState.unixtime` — the utc offset
is not subtracted (the claim's formula gives 18 less), and the value is
stored at decode time (the field changes), not computed on demand. -/
theorem c2_unixtime_counterexample :
    (process_buffer initState c2Frame 18).2.unixtime
      = GPS_EPOCH_AS_UNIX_TIME + 2048 * 604800 + 100 ∧
    GPS_EPOCH_AS_UNIX_TIME + 2048 * 604800 + 100 ≠ spec_derived_timestamp 2048 100 18 ∧
    (process_buffer initState c2Frame 18).2.unixtime ≠ initState.unixtime := by
  have h : (process_buffer initState c2Frame 18).2.unixtime
      = GPS_EPOCH_AS_UNIX_TIME + 2048 * 604800 + 100 := by
    rw [process_buffer_8f _ _ _ (by decide), decode_8f_ab_dispatch _ _ _ (by decide),
      decode_8f_ab_eq]
    dsimp only
    rw [show be16 (c2Frame.getD 6 0) (c2Frame.getD 7 0) = 1024 from by decide,
      fixWeekNumber_mid 1024 (by norm_num) (by norm_num)]
    decide
  refine ⟨h, by decide, ?_⟩
  rw [h]
  decide

/-- C2 (amended): the unix timestamp is computed at decode time as
GPS epoch + fixWeekNumber(raw week)·604800 + time_of_week (the utc offset is
not applied) and stored in `ReceiverState.unixtime`; `get_datetime` presents
the stored field. -/
theorem c2_unixtime_amended (st : ReceiverState) (buffer : List ℕ)
    (h0 : buffer.getD 0 0 = 0x8f) (h1 : buffer.getD 1 0 = 0xab) :
    (process_buffer st buffer 18).2.unixtime
      = GPS_EPOCH_AS_UNIX_TIME
        + (fixWeekNumber (be16 (buffer.getD 6 0) (buffer.getD 7 0)) : ℤ) * 604800
        + (be32 (buffer.getD 2 0) (buffer.getD 3 0) (buffer.getD 4 0) (buffer.getD 5 0) : ℤ) ∧
    get_datetime (process_buffer st buffer 18).2 = (process_buffer st buffer 18).2.unixtime := by
  rw [process_buffer_8f _ _ _ h0, decode_8f_ab_dispatch _ _ _ h1, decode_8f_ab_eq]
  refine ⟨?_, rfl⟩
  dsimp only
  ring

/-- C2 witness: the amended statement instantiated at the concrete frame. -/
theorem c2_unixtime_witness :
    (process_buffer initState c2Frame 18).2.unixtime
      = GPS_EPOCH_AS_UNIX_TIME
        + (fixWeekNumber (be16 (c2Frame.getD 6 0) (c2Frame.getD 7 0)) : ℤ) * 604800
        + (be32 (c2Frame.getD 2 0) (c2Frame.getD 3 0) (c2Frame.getD 4 0) (c2Frame.getD 5 0) : ℤ) ∧
    get_datetime (process_buffer initState c2Frame 18).2
      = (process_buffer initState c2Frame 18).2.unixtime :=
  c2_unixtime_amended initState c2Frame (by decide) (by decide)

/-- 0x8f 0xac frame whose latitude double is 1.0 (radian), longitude 0.0,
altitude double 1.0 (meter); all other fields zero. -/
def c3Frame : List ℕ :=
  [0x8f, 0xac] ++ List.replicate 35 0
    ++ [0x3f, 0xf0, 0, 0, 0, 0, 0, 0]
    ++ List.replicate 8 0
    ++ [0x3f, 0xf0, 0, 0, 0, 0, 0, 0]
    ++ List.replicate 8 0

/-- C3 counterexample: decoding a 0x8f 0xac frame whose raw latitude field is
exactly 1.0 radian and raw altitude field exactly 1.0 meter stores latitude
57.2958 (degrees, = round(1 · 57.29578, 4)) and altitude 3.3 (feet,
= round(1 · 3.2808398950131, 1)) — not the raw radian/meter values. -/
theorem c3_position_units_counterexample :
    (process_buffer initState c3Frame 69).1 = true ∧
    unpackF64 0x3f 0xf0 0 0 0 0 0 0 = 1 ∧
    (process_buffer initState c3Frame 69).2.latitude = 286479 / 5000 ∧
    (process_buffer initState c3Frame 69).2.latitude ≠ 1 ∧
    (process_buffer initState c3Frame 69).2.altitude = 33 / 10 ∧
    (process_buffer initState c3Frame 69).2.altitude ≠ 1 := by
  have hdis : process_buffer initState c3Frame 69 = decode_8f_ac initState c3Frame 69 := by
    rw [process_buffer_8f _ _ _ (by decide), decode_8f_ac_dispatch _ _ _ (by decide)]
  have hu1 : unpackF64 0x3f 0xf0 0 0 0 0 0 0 = 1 := by
    unfold unpackF64
    norm_num
  have hlat : (decode_8f_ac initState c3Frame 69).2.latitude
      = pyround 4 ((1 : ℚ) * 57.29578) := by
    rw [decode_8f_ac_eq]
    dsimp only
    rw [show c3Frame.getD 37 0 = 0x3f from by decide,
      show c3Frame.getD 38 0 = 0xf0 from by decide,
      show c3Frame.getD 39 0 = 0 from by decide,
      show c3Frame.getD 40 0 = 0 from by decide,
      show c3Frame.getD 41 0 = 0 from by decide,
      show c3Frame.getD 42 0 = 0 from by decide,
      show c3Frame.getD 43 0 = 0 from by decide,
      show c3Frame.getD 44 0 = 0 from by decide, hu1]
  have halt : (decode_8f_ac initState c3Frame 69).2.altitude
      = pyround 1 ((1 : ℚ) * 3.2808398950131) := by
    rw [decode_8f_ac_eq]
    dsimp only
    rw [show c3Frame.getD 53 0 = 0x3f from by decide,
      show c3Frame.getD 54 0 = 0xf0 from by decide,
      show c3Frame.getD 55 0 = 0 from by decide,
      show c3Frame.getD 56 0 = 0 from by decide,
      show c3Frame.getD 57 0 = 0 from by decide,
      show c3Frame.getD 58 0 = 0 from by decide,
      show c3Frame.getD 59 0 = 0 from by decide,
      show c3Frame.getD 60 0 = 0 from by decide, hu1]
  have hl : pyround 4 ((1 : ℚ) * 57.29578) = 286479 / 5000 := by
    unfold pyround rndHalfEven
    norm_num
  have ha : pyround 1 ((1 : ℚ) * 3.2808398950131) = 33 / 10 := by
    unfold pyround rndHalfEven
    norm_num
  refine ⟨?_, hu1, ?_, ?_, ?_, ?_⟩
  · rw [hdis, decode_8f_ac_eq]
  · rw [hdis, hlat, hl]
  · rw [hdis, hlat, hl]; norm_num
  · rw [hdis, halt, ha]
  · rw [hdis, halt, ha]; norm_num

/-- C3 (amended): a successful 0x8f 0xac decode stores latitude and longitude
converted from radians to degrees — round(raw · 57.29578, 4) — and altitude
converted from meters to feet — round(raw · 3.2808398950131, 1); raw device
units are not preserved. -/
theorem c3_position_units_amended (st : ReceiverState) (buffer : List ℕ)
    (h0 : buffer.getD 0 0 = 0x8f) (h1 : buffer.getD 1 0 = 0xac) :
    (process_buffer st buffer 69).1 = true ∧
    (process_buffer st buffer 69).2.latitude
      = pyround 4
          (unpackF64 (buffer.getD 37 0) (buffer.getD 38 0) (buffer.getD 39 0)
            (buffer.getD 40 0) (buffer.getD 41 0) (buffer.getD 42 0)
            (buffer.getD 43 0) (buffer.getD 44 0) * (57.29578 : ℚ)) ∧
    (process_buffer st buffer 69).2.longitude
      = pyround 4
          (unpackF64 (buffer.getD 45 0) (buffer.getD 46 0) (buffer.getD 47 0)
            (buffer.getD 48 0) (buffer.getD 49 0) (buffer.getD 50 0)
            (buffer.getD 51 0) (buffer.getD 52 0) * (57.29578 : ℚ)) ∧
    (process_buffer st buffer 69).2.altitude
      = pyround 1
          (unpackF64 (buffer.getD 53 0) (buffer.getD 54 0) (buffer.getD 55 0)
            (buffer.getD 56 0) (buffer.getD 57 0) (buffer.getD 58 0)
            (buffer.getD 59 0) (buffer.getD 60 0) * (3.2808398950131 : ℚ)) := by
  rw [process_buffer_8f _ _ _ h0, decode_8f_ac_dispatch _ _ _ h1, decode_8f_ac_eq]
  exact ⟨rfl, rfl, rfl, rfl⟩

/-- C3 witness: the amended statement instantiated at the concrete frame. -/
theorem c3_position_units_witness :
    (process_buffer initState c3Frame 69).1 = true ∧
    (process_buffer initState c3Frame 69).2.latitude
      = pyround 4
          (unpackF64 (c3Frame.getD 37 0) (c3Frame.getD 38 0) (c3Frame.getD 39 0)
            (c3Frame.getD 40 0) (c3Frame.getD 41 0) (c3Frame.getD 42 0)
            (c3Frame.getD 43 0) (c3Frame.getD 44 0) * (57.29578 : ℚ)) ∧
    (process_buffer initState c3Frame 69).2.longitude
      = pyround 4
          (unpackF64 (c3Frame.getD 45 0) (c3Frame.getD 46 0) (c3Frame.getD 47 0)
            (c3Frame.getD 48 0) (c3Frame.getD 49 0) (c3Frame.getD 50 0)
            (c3Frame.getD 51 0) (c3Frame.getD 52 0) * (57.29578 : ℚ)) ∧
    (process_buffer initState c3Frame 69).2.altitude
      = pyround 1
          (unpackF64 (c3Frame.getD 53 0) (c3Frame.getD 54 0) (c3Frame.getD 55 0)
            (c3Frame.getD 56 0) (c3Frame.getD 57 0) (c3Frame.getD 58 0)
            (c3Frame.getD 59 0) (c3Frame.getD 60 0) * (3.2808398950131 : ℚ)) :=
  c3_position_units_amended initState c3Frame (by decide) (by decide)

/-- Definition following the specification's words (claim C4): connected iff
now − last_seen is within the 5000 ms staleness threshold. -/
def spec_connected_within_5000 (now_ms last_seen : ℤ) : Bool :=
  now_ms - last_seen ≤ 5000

/-- C4 counterexample: with last_seen = 0 and now = 10000 ms (10 s stale, well
past the claimed 5000 ms threshold), the monitor tick sets connected to true —
the code's staleness threshold is 60000 ms, not 5000 ms. -/
theorem c4_liveness_counterexample :
    (alarm_server_tick initState 10000).connected = true ∧
    spec_connected_within_5000 10000 initState.last_seen_tm = false := by
  refine ⟨by decide, by decide⟩

/-- 0x8f 0xab frame used for the C4 witness. -/
def c4Frame : List ℕ :=
  [0x8f, 0xab, 0, 0, 0, 0, 0x08, 0x00, 0x00, 0x00, 0, 0, 0, 0, 1, 1, 0x07, 0xe8]

/-- C4 (amended): the monitor tick (run once per second) sets connected to
true exactly when now − last_seen_tm < 60000 ms and to false otherwise, and a
successfully decoded 0x8f 0xab frame sets connected back to true
immediately. -/
theorem c4_liveness_amended (tb : ReceiverState) (now_ms : ℤ) (st : ReceiverState)
    (buffer : List ℕ) (h0 : buffer.getD 0 0 = 0x8f) (h1 : buffer.getD 1 0 = 0xab) :
    ((alarm_server_tick tb now_ms).connected = true ↔ now_ms - tb.last_seen_tm < 60000) ∧
    (process_buffer st buffer 18).1 = true ∧
    (process_buffer st buffer 18).2.connected = true := by
  refine ⟨?_, ?_, ?_⟩
  · unfold alarm_server_tick
    split_ifs with h <;> simp <;> omega
  · rw [process_buffer_8f _ _ _ h0, decode_8f_ab_dispatch _ _ _ h1, decode_8f_ab_eq]
  · rw [process_buffer_8f _ _ _ h0, decode_8f_ab_dispatch _ _ _ h1, decode_8f_ab_eq]

/-- C4 witness: the amended statement instantiated at a fresh state one second
into the run and a concrete 0x8f 0xab frame. -/
theorem c4_liveness_witness :
    ((alarm_server_tick initState 1000).connected = true ↔
      (1000 : ℤ) - initState.last_seen_tm < 60000) ∧
    (process_buffer initState c4Frame 18).1 = true ∧
    (process_buffer initState c4Frame 18).2.connected = true :=
  c4_liveness_amended initState 1000 initState c4Frame (by decide) (by decide)

/-- C5: whenever `process_buffer` returns failure — unrecognized packet id,
unrecognized 0x8f sub-id, or a recognized layout whose frame length does not
match the struct format size — the receiver state is returned unchanged: no
decode failure partially mutates state. -/
theorem c5_failure_no_mutation (st : ReceiverState) (buffer : List ℕ) (offset : ℕ)
    (h : (process_buffer st buffer offset).1 = false) :
    (process_buffer st buffer offset).2 = st := by
  unfold process_buffer at h ⊢
  by_cases hig : buffer.getD 0 0 ∈ ignore_packets
  · rw [if_pos hig] at h
    simp at h
  rw [if_neg hig] at h ⊢
  by_cases h13 : buffer.getD 0 0 = 0x13
  · rw [if_pos h13] at h
    simp at h
  rw [if_neg h13] at h ⊢
  by_cases h6d : buffer.getD 0 0 = 0x6d
  · rw [if_pos h6d] at h ⊢
    unfold decode_6d at h ⊢
    by_cases hoff : offset < 18
    · rw [if_pos hoff]
    · rw [if_neg hoff] at h
      simp at h
  rw [if_neg h6d] at h ⊢
  by_cases h8f : buffer.getD 0 0 = 0x8f
  · rw [if_pos h8f] at h ⊢
    unfold decode_8f at h ⊢
    by_cases hig8 : buffer.getD 1 0 ∈ ignore_8f_packets
    · rw [if_pos hig8] at h
      simp at h
    rw [if_neg hig8] at h ⊢
    by_cases ha7 : buffer.getD 1 0 = 0xa7
    · rw [if_pos ha7] at h
      simp at h
    rw [if_neg ha7] at h ⊢
    by_cases ha8 : buffer.getD 1 0 = 0xa8
    · rw [if_pos ha8] at h
      simp at h
    rw [if_neg ha8] at h ⊢
    by_cases ha9 : buffer.getD 1 0 = 0xa9
    · rw [if_pos ha9] at h
      simp at h
    rw [if_neg ha9] at h ⊢
    by_cases hab : buffer.getD 1 0 = 0xab
    · rw [if_pos hab] at h ⊢
      unfold decode_8f_ab at h ⊢
      by_cases hoff : offset = 18
      · rw [if_pos hoff] at h
        simp at h
      · rw [if_neg hoff]
    rw [if_neg hab] at h ⊢
    by_cases hac : buffer.getD 1 0 = 0xac
    · rw [if_pos hac] at h ⊢
      unfold decode_8f_ac at h ⊢
      by_cases hoff : offset = 69
      · rw [if_pos hoff] at h
        simp at h
      · rw [if_neg hoff]
    · rw [if_neg hac]
  · rw [if_neg h8f]

/-- C5 witness: a frame with unknown id 0x99 fails to decode and leaves the
freshly initialized state identical. -/
theorem c5_failure_no_mutation_witness :
    (process_buffer initState [0x99] 1).1 = false ∧
    (process_buffer initState [0x99] 1).2 = initState :=
  ⟨by decide, c5_failure_no_mutation initState [0x99] 1 (by decide)⟩

/-- 0x6d frame (21 bytes: bitmask 0x23, four dilution floats, three PRNs) with
PRN bytes 7, 3, 0xff (signed −1) arriving out of order. -/
def c6Frame : List ℕ := [0x6d, 0x23] ++ List.replicate 16 0 ++ [7, 3, 0xff]

/-- C6: after every successful decode of a 0x6d satellite-selection frame,
`ReceiverState.satellites` is sorted ascending, for every wire order of the
PRN bytes. -/
theorem c6_satellites_sorted (st : ReceiverState) (buffer : List ℕ) (offset : ℕ)
    (h0 : buffer.getD 0 0 = 0x6d)
    (hs : (process_buffer st buffer offset).1 = true) :
    List.Sorted (· ≤ ·) (process_buffer st buffer offset).2.satellites := by
  rw [process_buffer_6d _ _ _ h0] at hs ⊢
  by_cases h : offset < 18
  · unfold decode_6d at hs
    rw [if_pos h] at hs
    simp at hs
  · rw [decode_6d_eq _ _ _ h]
    exact List.sorted_insertionSort _ _

/-- C6 witness: the PRNs 7, 3, −1 arrive out of order and are stored
sorted. -/
theorem c6_satellites_sorted_witness :
    List.Sorted (· ≤ ·) (process_buffer initState c6Frame 21).2.satellites :=
  c6_satellites_sorted initState c6Frame 21 (by decide) (by decide)

/-- 0x6d frame (18 bytes, empty PRN list) whose bitmask low 3 bits are 7, an
unmapped fix-dimension code. -/
def c7Frame : List ℕ := [0x6d, 0x17] ++ List.replicate 16 0

/-- C7: after every successful decode of a 0x6d frame, `fix_dim` equals the
mapping of the bitmask's low 3 bits — 1 ↦ 1, 3 ↦ 2, 4 ↦ 3, 5 ↦ 5, anything
else (including 0) ↦ 0 with a logged warning — and is therefore always in
{0, 1, 2, 3, 5}. -/
theorem c7_fix_dim_mapping (st : ReceiverState) (buffer : List ℕ) (offset : ℕ)
    (h0 : buffer.getD 0 0 = 0x6d)
    (hs : (process_buffer st buffer offset).1 = true) :
    (process_buffer st buffer offset).2.fix_dim
      = (if (buffer.getD 1 0) &&& 0x07 = 1 then 1
         else if (buffer.getD 1 0) &&& 0x07 = 3 then 2
         else if (buffer.getD 1 0) &&& 0x07 = 4 then 3
         else if (buffer.getD 1 0) &&& 0x07 = 5 then 5
         else 0) ∧
    (process_buffer st buffer offset).2.fix_dim ∈ ([0, 1, 2, 3, 5] : List ℤ) := by
  rw [process_buffer_6d _ _ _ h0] at hs ⊢
  by_cases h : offset < 18
  · unfold decode_6d at hs
    rw [if_pos h] at hs
    simp at hs
  · rw [decode_6d_eq _ _ _ h]
    refine ⟨rfl, ?_⟩
    dsimp only
    split_ifs <;> decide

/-- C7 witness: bitmask 0x17 has low 3 bits 7, which is unmapped, so fix_dim
is 0. -/
theorem c7_fix_dim_mapping_witness :
    (process_buffer initState c7Frame 18).2.fix_dim
      = (if (c7Frame.getD 1 0) &&& 0x07 = 1 then 1
         else if (c7Frame.getD 1 0) &&& 0x07 = 3 then 2
         else if (c7Frame.getD 1 0) &&& 0x07 = 4 then 3
         else if (c7Frame.getD 1 0) &&& 0x07 = 5 then 5
         else 0) ∧
    (process_buffer initState c7Frame 18).2.fix_dim ∈ ([0, 1, 2, 3, 5] : List ℤ) :=
  c7_fix_dim_mapping initState c7Frame 18 (by decide) (by decide)

/-- C8: every frame whose id is in `ignore_packets`, and every 0x8f frame
whose sub-id is in `ignore_8f_packets` or is 0xa7, 0xa8 or 0xa9 (branches
that log at most and fall through to success), decodes successfully and
leaves every receiver-state field unchanged. -/
theorem c8_ignored_packets (st : ReceiverState) (buffer : List ℕ) (offset : ℕ)
    (h : buffer.getD 0 0 ∈ ignore_packets
      ∨ (buffer.getD 0 0 = 0x8f
          ∧ buffer.getD 1 0 ∈ ignore_8f_packets ++ [0xa7, 0xa8, 0xa9])) :
    process_buffer st buffer offset = (true, st) := by
  rcases h with h | ⟨h0, h1⟩
  · unfold process_buffer
    rw [if_pos h]
  · rw [process_buffer_8f _ _ _ h0]
    unfold decode_8f
    rcases List.mem_append.mp h1 with h2 | h2
    · rw [if_pos h2]
    · have h3 : buffer.getD 1 0 = 0xa7 ∨ buffer.getD 1 0 = 0xa8 ∨ buffer.getD 1 0 = 0xa9 := by
        simpa using h2
      rcases h3 with h3 | h3 | h3 <;> rw [h3] <;> norm_num [ignore_8f_packets]

/-- C8 witness: an ignored id (0x43) decodes to success with the state
unchanged. -/
theorem c8_ignored_packets_witness :
    process_buffer initState [0x43] 1 = (true, initState) :=
  c8_ignored_packets initState [0x43] 1 (Or.inl (by decide))

/-- C9 counterexample: the 9-byte enable-packets command is not among the
byte strings transmitted to the device at startup — nothing is ever
transmitted. -/
theorem c9_handshake_counterexample :
    [0x10, 0x8e, 0xa5, 0x00, 0x45, 0x00, 0x00, 0x10, 0x03] ∉ startup_port_writes := by
  decide

/-- C9 (amended): the system transmits nothing to the device: neither the
constructor nor the serial read loop writes any bytes to the serial port. -/
theorem c9_handshake_amended : ∀ w : List ℕ, w ∉ startup_port_writes := by
  intro w
  simp [startup_port_writes]

/-- C10: under the loop invariant (both cursors at most 255 at the start of an
iteration), every buffer write performed while consuming one byte uses an
index strictly below 256, and the invariant is re-established by the post-byte
overflow checks, which reset an offending cursor to 0 (and, for the payload
cursor, return the reader to `RS_INIT`). -/
theorem c10_buffer_bounds (tb : ReceiverState) (ss : SerialState) (b : ℕ) (now_ms : ℤ)
    (h : serialInv ss) :
    (∀ i ∈ serial_step_write_indices ss b, i < 256) ∧
    serialInv (serial_step tb ss b now_ms).2 := by
  obtain ⟨h1, h2⟩ := h
  constructor
  · intro i hi
    unfold serial_step_write_indices at hi
    split_ifs at hi <;> simp at hi <;> omega
  · unfold serial_step
    split_ifs <;>
      exact overflow_check_inv _ (by dsimp only; omega) (by dsimp only; omega)

/-- C10 witness: the invariant holds for the initial loop state and is
preserved when the first byte (a DLE) arrives. -/
theorem c10_buffer_bounds_witness :
    (∀ i ∈ serial_step_write_indices initSerial 0x10, i < 256) ∧
    serialInv (serial_step initState initSerial 0x10 0).2 :=
  c10_buffer_bounds initState initSerial 0x10 0
    ⟨by norm_num [initSerial], by norm_num [initSerial]⟩

end Thunderbolt
